import Mathlib

/-!
Verification development for the BCM2835 MMC host driver
(drivers/mmc/host/bcm2835-mmc.c).

The definitions below are a shallow embedding of the driver code.
Machine integers are modelled as Nat with explicit truncation by
powers of two where the C code relies on fixed-width arithmetic.
Hardware is modelled by explicit register-file values or by streams
of register-read results; side effects (MMIO writes, timer arming,
tasklet scheduling, controller resets) are modelled as event lists
in program order.
-/

set_option maxRecDepth 10000

/-- Linux errno value for a generic input/output error (used by the
driver as the negative value -5 when the controller never releases
its inhibit bits). -/
def errIo : Int := 5

/-- Linux errno value for a timed-out operation (used by the driver as
the negative value -110 for watchdog and hardware timeouts). -/
def errTimedOut : Int := 110

/-- Linux errno value for an illegal byte sequence, used for CRC and
protocol errors as the negative value -84. -/
def errIlseq : Int := 84

/-- Linux errno value for an invalid argument, used as the negative
value -22 for the unrepresentable 136-bit-response-with-busy case. -/
def errInval : Int := 22

/-!
Register layout constants. Modelled from the spec: the driver programs
an SDHCI-compatible register file (the sdhci.h header it includes is
not part of the given sources, so the standard SDHCI offsets and bit
values are used).
-/

def SDHCI_ARGUMENT2 : Nat := 0x00

def SDHCI_BLOCK_SIZE : Nat := 0x04

def SDHCI_BLOCK_COUNT : Nat := 0x06

def SDHCI_ARGUMENT : Nat := 0x08

def SDHCI_TRANSFER_MODE : Nat := 0x0C

def SDHCI_COMMAND : Nat := 0x0E

def SDHCI_RESPONSE : Nat := 0x10

def SDHCI_BUFFER : Nat := 0x20

def SDHCI_PRESENT_STATE : Nat := 0x24

def SDHCI_CLOCK_CONTROL : Nat := 0x2C

def SDHCI_TIMEOUT_CONTROL : Nat := 0x2E

def SDHCI_SOFTWARE_RESET : Nat := 0x2F

def SDHCI_INT_STATUS : Nat := 0x30

def SDHCI_INT_ENABLE : Nat := 0x34

def SDHCI_SIGNAL_ENABLE : Nat := 0x38

/-- Transfer-mode register bit: DMA enable. -/
def SDHCI_TRNS_DMA : Nat := 0x01

/-- Transfer-mode register bit: block-count enable. -/
def SDHCI_TRNS_BLK_CNT_EN : Nat := 0x02

/-- Transfer-mode register bit: automatic CMD12 issuance. -/
def SDHCI_TRNS_AUTO_CMD12 : Nat := 0x04

/-- Transfer-mode register bit: automatic CMD23 issuance. -/
def SDHCI_TRNS_AUTO_CMD23 : Nat := 0x08

/-- Transfer-mode register bit: read direction. -/
def SDHCI_TRNS_READ : Nat := 0x10

/-- Transfer-mode register bit: multi-block transfer. -/
def SDHCI_TRNS_MULTI : Nat := 0x20

/-- Present-state register bit: command-line inhibit. -/
def SDHCI_CMD_INHIBIT : Nat := 0x01

/-- Present-state register bit: data-line inhibit. -/
def SDHCI_DATA_INHIBIT : Nat := 0x02

/-- Software-reset register bit: global reset of the whole controller. -/
def SDHCI_RESET_ALL : Nat := 0x01

/-- Software-reset register bit: reset of the command state machine. -/
def SDHCI_RESET_CMD : Nat := 0x02

/-- Software-reset register bit: reset of the data state machine. -/
def SDHCI_RESET_DATA : Nat := 0x04

def SDHCI_CMD_RESP_NONE : Nat := 0x00

def SDHCI_CMD_RESP_LONG : Nat := 0x01

def SDHCI_CMD_RESP_SHORT : Nat := 0x02

def SDHCI_CMD_RESP_SHORT_BUSY : Nat := 0x03

def SDHCI_CMD_CRC : Nat := 0x08

def SDHCI_CMD_INDEX : Nat := 0x10

def SDHCI_CMD_DATA : Nat := 0x20

/-- Command register encoding used by the driver:
SDHCI_MAKE_CMD(c, f) = ((c and 0xff) shifted left 8) or (f and 0xff). -/
def SDHCI_MAKE_CMD (c f : Nat) : Nat := ((c &&& 0xff) <<< 8) ||| (f &&& 0xff)

/-- Block-size register encoding:
SDHCI_MAKE_BLKSZ(dma, blksz) = ((dma and 7) shifted left 12) or (blksz and 0xfff). -/
def SDHCI_MAKE_BLKSZ (dma blksz : Nat) : Nat := ((dma &&& 0x7) <<< 12) ||| (blksz &&& 0xFFF)

def SDHCI_DEFAULT_BOUNDARY_ARG : Nat := 0x7

/-- Maximum clock divisor of an SDHCI version 3.00 controller
(10-bit divisor field scaled by two). -/
def SDHCI_MAX_DIV_SPEC_300 : Nat := 2046

def SDHCI_DIV_MASK : Nat := 0xFF

def SDHCI_DIV_MASK_LEN : Nat := 8

def SDHCI_DIV_HI_MASK : Nat := 0x300

def SDHCI_DIVIDER_SHIFT : Nat := 8

def SDHCI_DIVIDER_HI_SHIFT : Nat := 6

def SDHCI_CLOCK_INT_EN : Nat := 0x0001

def SDHCI_CLOCK_INT_STABLE : Nat := 0x0002

def SDHCI_CLOCK_CARD_EN : Nat := 0x0004

/-- Interrupt-status bits of the SDHCI layout. -/
def SDHCI_INT_RESPONSE : Nat := 0x00000001

def SDHCI_INT_DATA_END : Nat := 0x00000002

def SDHCI_INT_DMA_END : Nat := 0x00000008

def SDHCI_INT_SPACE_AVAIL : Nat := 0x00000010

def SDHCI_INT_DATA_AVAIL : Nat := 0x00000020

def SDHCI_INT_CARD_INSERT : Nat := 0x00000040

def SDHCI_INT_CARD_REMOVE : Nat := 0x00000080

def SDHCI_INT_CARD_INT : Nat := 0x00000100

def SDHCI_INT_ERROR : Nat := 0x00008000

def SDHCI_INT_TIMEOUT : Nat := 0x00010000

def SDHCI_INT_CRC : Nat := 0x00020000

def SDHCI_INT_END_BIT : Nat := 0x00040000

def SDHCI_INT_INDEX : Nat := 0x00080000

def SDHCI_INT_DATA_TIMEOUT : Nat := 0x00100000

def SDHCI_INT_DATA_CRC : Nat := 0x00200000

def SDHCI_INT_DATA_END_BIT : Nat := 0x00400000

def SDHCI_INT_BUS_POWER : Nat := 0x00800000

def SDHCI_INT_ADMA_ERROR : Nat := 0x02000000

/-- Command interrupt mask: timeout, crc, end-bit, index, response. -/
def SDHCI_INT_CMD_MASK : Nat :=
  SDHCI_INT_RESPONSE ||| SDHCI_INT_TIMEOUT ||| SDHCI_INT_CRC |||
  SDHCI_INT_END_BIT ||| SDHCI_INT_INDEX

/-- Data interrupt mask: data end, dma end, space/data available,
data timeout, data crc, data end-bit, adma error. -/
def SDHCI_INT_DATA_MASK : Nat :=
  SDHCI_INT_DATA_END ||| SDHCI_INT_DMA_END ||| SDHCI_INT_SPACE_AVAIL |||
  SDHCI_INT_DATA_AVAIL ||| SDHCI_INT_DATA_TIMEOUT ||| SDHCI_INT_DATA_CRC |||
  SDHCI_INT_DATA_END_BIT ||| SDHCI_INT_ADMA_ERROR

/-- TIMEOUT_VAL from the driver, written to the timeout-control register. -/
def TIMEOUT_VAL : Nat := 0xE

/-- PIO_DMA_BARRIER: the inclusive threshold under which PIO is used
instead of DMA; the driver defaults it to 0 when the configuration
option is absent. -/
def PIO_DMA_BARRIER : Nat := 0

/-!
Register access layer (bcm2835_mmc_readl / readw / readb / writel / writew).
The hardware word at each 4-byte-aligned offset is a value of the
function field regs; the write-only command register is emulated
through the in-memory shadow word, exactly as in the driver.
MMIO writes performed by an operation are returned as a list of
(offset, value) pairs so that theorems can speak about which
registers were touched and in what order.
-/

structure RegFile where
  regs : Nat → Nat
  shadow : Nat

/-- Embedding of bcm2835_mmc_readl: a direct 32-bit read of the word
at the given offset. -/
def bcm2835_mmc_readl (rf : RegFile) (reg : Nat) : Nat :=
  rf.regs reg % 2 ^ 32

/-- Embedding of bcm2835_mmc_writel: a direct 32-bit write of the word
at the given offset; returns the new register file and the MMIO write
performed. -/
def bcm2835_mmc_writel (rf : RegFile) (val reg : Nat) : RegFile × List (Nat × Nat) :=
  ({ rf with regs := fun a => if a = reg then val % 2 ^ 32 else rf.regs a },
   [(reg, val % 2 ^ 32)])

/-- Embedding of bcm2835_mmc_readw: read the containing 32-bit word
and extract the addressed 16-bit half. -/
def bcm2835_mmc_readw (rf : RegFile) (reg : Nat) : Nat :=
  let val := bcm2835_mmc_readl rf (reg - reg % 4)
  let word_shift := ((reg >>> 1) &&& 1) * 16
  (val >>> word_shift) &&& 0xffff

/-- Embedding of bcm2835_mmc_readb: read the containing 32-bit word
and extract the addressed byte. -/
def bcm2835_mmc_readb (rf : RegFile) (reg : Nat) : Nat :=
  let val := bcm2835_mmc_readl rf (reg - reg % 4)
  let byte_shift := (reg % 4) * 8
  (val >>> byte_shift) &&& 0xff

/-- Embedding of bcm2835_mmc_writew: read-modify-write of the
containing word, except that the old value of the word containing the
command register is taken from the shadow, and a write to the
transfer-mode register only updates the shadow and issues no MMIO
write at all. -/
def bcm2835_mmc_writew (rf : RegFile) (val reg : Nat) : RegFile × List (Nat × Nat) :=
  let oldval := if reg = SDHCI_COMMAND then rf.shadow
                else bcm2835_mmc_readl rf (reg - reg % 4)
  let word_shift := ((reg >>> 1) &&& 1) * 16
  let mask := 0xffff <<< word_shift
  let newval := (oldval &&& (0xffffffff ^^^ mask)) ||| (val <<< word_shift)
  if reg = SDHCI_TRANSFER_MODE then ({ rf with shadow := newval }, [])
  else bcm2835_mmc_writel rf newval (reg - reg % 4)

/-!
Long (136-bit) response reconstruction, from bcm2835_mmc_finish_command:
for i in 0..3 the driver computes
  resp[i] = readl(SDHCI_RESPONSE + (3-i)*4) shifted left 8
and, unless i = 3, ORs in readb(SDHCI_RESPONSE + (3-i)*4 - 1).
-/

/-- Embedding of the MMC_RSP_136 branch of bcm2835_mmc_finish_command:
the value stored into resp[i]. -/
def bcm2835_mmc_finish_command_resp136 (rf : RegFile) (i : Fin 4) : Nat :=
  let chunk := (bcm2835_mmc_readl rf (SDHCI_RESPONSE + (3 - i.val) * 4) <<< 8) % 2 ^ 32
  if i.val ≠ 3 then
    chunk ||| bcm2835_mmc_readb rf (SDHCI_RESPONSE + (3 - i.val) * 4 - 1)
  else chunk

/-- Formalisation of the claim wording for the 136-bit response path:
every one of the four words, including the least significant one, is
the aligned chunk shifted left 8 bits OR-ed with the separately-read
preceding byte. This follows the claim text, to be compared with the
definition taken from the code. -/
def resp136ClaimAllChunks (rf : RegFile) (i : Fin 4) : Nat :=
  ((bcm2835_mmc_readl rf (SDHCI_RESPONSE + (3 - i.val) * 4) <<< 8) % 2 ^ 32) |||
    bcm2835_mmc_readb rf (SDHCI_RESPONSE + (3 - i.val) * 4 - 1)

/-- Register file used to separate the code path from the claim
wording on the 136-bit response: the word just below the response
area (offset 0x0C) has a nonzero top byte, all response words are 0. -/
def resp136CexRegFile : RegFile :=
  { regs := fun a => if a = 12 then 0xFF000000 else 0, shadow := 0 }

/-!
Clock divisor selection, from bcm2835_mmc_set_clock: a divisor of 1
when the maximum clock does not exceed the target, otherwise an upward
search over even divisors 2, 4, ... bounded by SDHCI_MAX_DIV_SPEC_300.
The search loop is embedded with an explicit fuel argument that mirrors
the loop bound: starting from divisor 2 with fuel 1022, exhausting the
fuel leaves the divisor at exactly 2046, which is also the value the C
loop leaves in div when it terminates by its bound.
-/

def bcm2835_mmc_clock_div_search (max_clk clock : Nat) : Nat → Nat → Nat
  | d, 0 => d
  | d, fuel + 1 =>
    if d < SDHCI_MAX_DIV_SPEC_300 then
      if max_clk / d ≤ clock then d
      else bcm2835_mmc_clock_div_search max_clk clock (d + 2) fuel
    else d

/-- The divisor selected by bcm2835_mmc_set_clock for a nonzero target
clock. -/
def bcm2835_mmc_select_div (max_clk clock : Nat) : Nat :=
  if max_clk ≤ clock then 1
  else bcm2835_mmc_clock_div_search max_clk clock 2 1022

structure SetClockResult where
  actualClock : Nat
  realDiv : Nat
  clkReg : Nat

/-- Embedding of the divisor/actual-clock computation of
bcm2835_mmc_set_clock (clk_mul is the local constant 1 in the driver).
A zero target returns immediately after disabling the clock, leaving
actual_clock at 0. -/
def bcm2835_mmc_set_clock (max_clk clock : Nat) : SetClockResult :=
  if clock = 0 then { actualClock := 0, realDiv := 0, clkReg := 0 }
  else
    let div := bcm2835_mmc_select_div max_clk clock
    let real_div := div
    let divReg := div >>> 1
    { actualClock := if real_div ≠ 0 then max_clk * 1 / real_div else 0,
      realDiv := real_div,
      clkReg :=
        ((divReg &&& SDHCI_DIV_MASK) <<< SDHCI_DIVIDER_SHIFT) |||
        (((divReg &&& SDHCI_DIV_HI_MASK) >>> SDHCI_DIV_MASK_LEN) <<< SDHCI_DIVIDER_HI_SHIFT) |||
        SDHCI_CLOCK_INT_EN }

/-!
PIO pack/unpack, from bcm2835_bcm2835_mmc_write_block_pio and
bcm2835_bcm2835_mmc_read_block_pio. The write path accumulates bytes
into the 32-bit scratch word least-significant byte first and issues
one buffer-register write per 4 consumed bytes, flushing a partial
trailing word at block end; the functions below model the byte stream
of one block (the scatter-gather regions of a block concatenate into
this stream, and the scratch word persists across region boundaries).
-/

/-- Byte stream packed into the sequence of 32-bit buffer-register
writes performed by the PIO write path. -/
def bcm2835_pio_pack : List Nat → List Nat
  | [] => []
  | [b0] => [b0]
  | [b0, b1] => [b0 ||| (b1 <<< 8)]
  | [b0, b1, b2] => [b0 ||| (b1 <<< 8) ||| (b2 <<< 16)]
  | b0 :: b1 :: b2 :: b3 :: rest =>
    (b0 ||| (b1 <<< 8) ||| (b2 <<< 16) ||| (b3 <<< 24)) :: bcm2835_pio_pack rest

/-- Byte stream produced by the PIO read path from a sequence of
32-bit buffer-register reads, for a block of the given size: a fresh
word is read whenever the 4-byte scratch is exhausted, and each byte
is the low byte of the scratch, which is then shifted right 8. -/
def bcm2835_pio_unpack : List Nat → Nat → List Nat
  | _, 0 => []
  | [], _ + 1 => []
  | w :: _, 1 => [w &&& 0xFF]
  | w :: _, 2 => [w &&& 0xFF, (w >>> 8) &&& 0xFF]
  | w :: _, 3 => [w &&& 0xFF, (w >>> 8) &&& 0xFF, (w >>> 16) &&& 0xFF]
  | w :: ws, n + 4 =>
    (w &&& 0xFF) :: ((w >>> 8) &&& 0xFF) :: ((w >>> 16) &&& 0xFF) ::
    ((w >>> 24) &&& 0xFF) :: bcm2835_pio_unpack ws n

/-!
Command dispatch and data preparation. Hardware effects are recorded
as events in program order. Writes to 16-bit and 8-bit registers are
recorded at field granularity (the register-merge mechanics are
verified separately on the register access layer above); a write to
the transfer-mode register is a shadow update, not an MMIO write, and
is recorded as its own kind of event.
-/

inductive WEvent where
  | timeoutControl (v : Nat)
  | intEnable (v : Nat)
  | signalEnable (v : Nat)
  | blockSize (v : Nat)
  | blockCount (v : Nat)
  | argument (v : Nat)
  | argument2 (v : Nat)
  | shadowTransferMode (v : Nat)
  | command (v : Nat)
  | armTimer (jiffies : Nat)
  | scheduleTasklet
  | reset (mask : Nat)
  | dispatchStop
deriving DecidableEq, Repr

/-- Fields of a struct mmc_command that the embedded driver functions
consume. Response-shape flags of the MMC layer are carried as
individual booleans (MMC_RSP_PRESENT, MMC_RSP_136, MMC_RSP_BUSY,
MMC_RSP_CRC, MMC_RSP_OPCODE); hasData reflects cmd->data being
non-null, with the data descriptor fields inlined. -/
structure SCmd where
  opcode : Nat
  arg : Nat
  hasData : Bool
  dataBlksz : Nat
  dataBlocks : Nat
  dataIsRead : Bool
  rspPresent : Bool
  rsp136 : Bool
  rspBusy : Bool
  rspCrc : Bool
  rspOpcode : Bool
  busyTimeout : Nat
  error : Int
deriving DecidableEq, Repr

/-- Fields of struct bcm2835_host consumed by command dispatch. The
host flags bitmask is represented fieldwise (SDHCI_AUTO_CMD12,
SDHCI_AUTO_CMD23, SDHCI_REQ_USE_DMA); sbcPresent and sbcArg reflect
host->mrq->sbc, mrqHasData reflects host->mrq->data, and
cmdIsDataStop reflects cmd == host->mrq->data->stop for the command
being dispatched. transferModeReg is the halfword a 16-bit read of
the transfer-mode register returns. -/
structure SHost where
  ier : Nat
  haveDma : Bool
  flagAutoCmd12 : Bool
  flagAutoCmd23 : Bool
  flagReqUseDma : Bool
  sbcPresent : Bool
  sbcArg : Nat
  mrqHasData : Bool
  cmdIsDataStop : Bool
  useDma : Bool
  blocks : Nat
  transferModeReg : Nat
deriving DecidableEq, Repr

/-- Multi-block opcode test of the MMC core. Modelled from the spec:
a command is multi-block when its opcode is read-multiple-block (18)
or write-multiple-block (25); the mmc_op_multi helper is declared in
a header outside the given sources. -/
def mmc_op_multi (opcode : Nat) : Bool :=
  opcode == 18 || opcode == 25

/-- Embedding of bcm2835_mmc_set_transfer_irqs: swap the PIO
available-interrupt sources for the DMA ones, or back, in the cached
interrupt-enable mask. -/
def bcm2835_mmc_set_transfer_irqs (ier : Nat) (useDma : Bool) : Nat :=
  let pio_irqs := SDHCI_INT_DATA_AVAIL ||| SDHCI_INT_SPACE_AVAIL
  let dma_irqs := SDHCI_INT_DMA_END ||| SDHCI_INT_ADMA_ERROR
  if useDma then (ier &&& (0xffffffff ^^^ pio_irqs)) ||| dma_irqs
  else (ier &&& (0xffffffff ^^^ dma_irqs)) ||| pio_irqs

/-- Embedding of bcm2835_mmc_prepare_data: program the timeout
control when data or busy signaling is present; for a data command,
select the transfer backend (use_dma is true exactly when DMA
channels work and the block count exceeds PIO_DMA_BARRIER), arm the
matching interrupt sources and program block size and count. -/
def bcm2835_mmc_prepare_data (h : SHost) (cmd : SCmd) : SHost × List WEvent :=
  let evs0 := if cmd.hasData || cmd.rspBusy then [WEvent.timeoutControl TIMEOUT_VAL] else []
  if !cmd.hasData then (h, evs0)
  else
    let h1 := { h with blocks := if !h.flagReqUseDma then cmd.dataBlocks else h.blocks }
    let h2 := { h1 with useDma := h1.haveDma && decide (cmd.dataBlocks > PIO_DMA_BARRIER) }
    let ier1 := bcm2835_mmc_set_transfer_irqs h2.ier h2.useDma
    let h3 := { h2 with ier := ier1 }
    (h3, evs0 ++ [WEvent.intEnable ier1, WEvent.signalEnable ier1,
                  WEvent.blockSize (SDHCI_MAKE_BLKSZ SDHCI_DEFAULT_BOUNDARY_ARG cmd.dataBlksz),
                  WEvent.blockCount cmd.dataBlocks])

/-- Transfer-mode word computed by bcm2835_mmc_set_transfer_mode for
a data command: block-count enable always; the multi bit when the
opcode is multi-block or more than one block is transferred; then
auto-CMD12 when no set-block-count sub-command exists and the
capability is present, else auto-CMD23 when a sub-command exists and
that capability is present; then the read-direction bit and the DMA
bit from the request-uses-DMA flag. -/
def bcm2835_mmc_transfer_mode (h : SHost) (cmd : SCmd) : Nat :=
  let mode := SDHCI_TRNS_BLK_CNT_EN
  let mode :=
    if mmc_op_multi cmd.opcode || decide (cmd.dataBlocks > 1) then
      let m := mode ||| SDHCI_TRNS_MULTI
      if !h.sbcPresent && h.flagAutoCmd12 then m ||| SDHCI_TRNS_AUTO_CMD12
      else if h.sbcPresent && h.flagAutoCmd23 then m ||| SDHCI_TRNS_AUTO_CMD23
      else m
    else mode
  let mode := if cmd.dataIsRead then mode ||| SDHCI_TRNS_READ else mode
  if h.flagReqUseDma then mode ||| SDHCI_TRNS_DMA else mode

/-- Embedding of bcm2835_mmc_set_transfer_mode: for a command without
data, clear the two auto-command bits of the current transfer-mode
halfword; for a data command, program the sub-command argument into
ARGUMENT2 when auto-CMD23 was chosen and store the computed mode word
(both transfer-mode stores go to the shadow, not to hardware). -/
def bcm2835_mmc_set_transfer_mode (h : SHost) (cmd : SCmd) : List WEvent :=
  if !cmd.hasData then
    [WEvent.shadowTransferMode
      (h.transferModeReg &&& (0xffff ^^^ (SDHCI_TRNS_AUTO_CMD12 ||| SDHCI_TRNS_AUTO_CMD23)))]
  else
    (if (mmc_op_multi cmd.opcode || decide (cmd.dataBlocks > 1)) &&
        !(!h.sbcPresent && h.flagAutoCmd12) && (h.sbcPresent && h.flagAutoCmd23) then
      [WEvent.argument2 h.sbcArg]
    else []) ++ [WEvent.shadowTransferMode (bcm2835_mmc_transfer_mode h cmd)]

/-- Inhibit mask computed at the top of bcm2835_mmc_send_command:
command inhibit always, data inhibit when the command carries data or
uses busy signaling, except that the stop command of the current data
transfer does not wait on data inhibit. -/
def bcm2835_mmc_inhibit_mask (h : SHost) (cmd : SCmd) : Nat :=
  let mask := SDHCI_CMD_INHIBIT |||
    (if cmd.hasData || cmd.rspBusy then SDHCI_DATA_INHIBIT else 0)
  if h.mrqHasData && h.cmdIsDataStop then mask &&& (0xffffffff ^^^ SDHCI_DATA_INHIBIT)
  else mask

/-- Busy-poll of the present-state register against a mask: present i
is the value returned by the i-th read. Returns the number of waits
performed when some read finds the masked bits clear, and exhaustion
when the initial fuel of 1000 ten-microsecond waits is spent with the
bits still set. -/
def bcm2835_mmc_poll_present (present : Nat → Nat) (mask : Nat) : Nat → Nat → Option Nat
  | fuel, i =>
    if present i &&& mask = 0 then some i
    else
      match fuel with
      | 0 => none
      | f + 1 => bcm2835_mmc_poll_present present mask f (i + 1)

/-- Timer ticks per second used for watchdog arithmetic (the kernel
HZ configuration value; 100 on this platform). -/
def kernelHz : Nat := 100

/-- Result of one call to bcm2835_mmc_send_command: the updated host,
the command with its error field possibly resolved, the events issued
in program order, and the total busy-wait time in microseconds. -/
structure SCResult where
  host : SHost
  cmd : SCmd
  events : List WEvent
  delayedUs : Nat
deriving Repr

/-- Embedding of bcm2835_mmc_send_command. The present-state register
reads are the stream present. When the inhibit poll exhausts its 10ms
budget the command error becomes the negative of errIo and completion
is scheduled directly, with no register programming at all. Otherwise
the watchdog is armed, data is prepared, the argument register is
written, the transfer mode is stored, a command both long-response
and busy is rejected as invalid, and finally the command register is
written. -/
def bcm2835_mmc_send_command (present : Nat → Nat) (h : SHost) (cmd : SCmd) : SCResult :=
  let mask := bcm2835_mmc_inhibit_mask h cmd
  match bcm2835_mmc_poll_present present mask 1000 0 with
  | none =>
    { host := h, cmd := { cmd with error := -errIo },
      events := [WEvent.scheduleTasklet], delayedUs := 10 * 1000 }
  | some waits =>
    let timerJiffies :=
      if !cmd.hasData && decide (cmd.busyTimeout > 9000) then
        ((cmd.busyTimeout + 999) / 1000) * kernelHz + kernelHz
      else 10 * kernelHz
    let prep := bcm2835_mmc_prepare_data h cmd
    let evs := [WEvent.armTimer timerJiffies] ++ prep.2 ++ [WEvent.argument cmd.arg] ++
               bcm2835_mmc_set_transfer_mode prep.1 cmd
    if cmd.rsp136 && cmd.rspBusy then
      { host := prep.1, cmd := { cmd with error := -errInval },
        events := evs ++ [WEvent.scheduleTasklet], delayedUs := 10 * waits }
    else
      let flags :=
        (if !cmd.rspPresent then SDHCI_CMD_RESP_NONE
         else if cmd.rsp136 then SDHCI_CMD_RESP_LONG
         else if cmd.rspBusy then SDHCI_CMD_RESP_SHORT_BUSY
         else SDHCI_CMD_RESP_SHORT) |||
        (if cmd.rspCrc then SDHCI_CMD_CRC else 0) |||
        (if cmd.rspOpcode then SDHCI_CMD_INDEX else 0) |||
        (if cmd.hasData then SDHCI_CMD_DATA else 0)
      { host := prep.1, cmd := cmd,
        events := evs ++ [WEvent.command (SDHCI_MAKE_CMD cmd.opcode flags)],
        delayedUs := 10 * waits }

/-!
Data completion and the timeout watchdog.
-/

/-- Fields of a struct mmc_data consumed by data completion: block
geometry, whether a stop command is attached, the error field and the
bytes-transferred result. -/
structure DataDesc where
  blksz : Nat
  blocks : Nat
  hasStop : Bool
  error : Int
  bytesXfered : Nat
deriving DecidableEq, Repr

/-- Embedding of bcm2835_mmc_finish_data: bytes_xfered becomes 0 on
error and blksz*blocks on success; when a stop command is attached
and the data errored or no set-block-count sub-command was used, the
command and data state machines are reset (only when an error is
present) and the stop command is dispatched; otherwise completion is
scheduled. -/
def bcm2835_mmc_finish_data (d : DataDesc) (sbcPresent : Bool) : DataDesc × List WEvent :=
  let d1 := { d with bytesXfered := if d.error ≠ 0 then 0 else d.blksz * d.blocks }
  if d.hasStop && (d.error ≠ 0 || !sbcPresent) then
    (d1, (if d.error ≠ 0 then [WEvent.reset SDHCI_RESET_CMD, WEvent.reset SDHCI_RESET_DATA]
          else []) ++ [WEvent.dispatchStop])
  else (d1, [WEvent.scheduleTasklet])

/-- The error field is the only command state the watchdog touches. -/
structure TCmd where
  error : Int
deriving DecidableEq, Repr

/-- Host state consumed by the watchdog: whether a request is active,
the in-flight data and command pointers, the main command of the
request, and whether the request used a set-block-count sub-command. -/
structure TimerHost where
  mrqActive : Bool
  data : Option DataDesc
  cmd : Option TCmd
  mrqCmd : TCmd
  sbcPresent : Bool
deriving DecidableEq, Repr

/-- Result of a watchdog expiry: the updated host, the finished data
descriptor when data completion ran, and the events issued. -/
structure TimerOut where
  host : TimerHost
  finishedData : Option DataDesc
  events : List WEvent
deriving DecidableEq, Repr

/-- Embedding of bcm2835_mmc_timeout_timer: with no active request
nothing happens; with data in flight its error becomes the negative
of errTimedOut and data completion runs; otherwise the active command
(or, failing that, the main command of the request) gets that error
and completion is scheduled. -/
def bcm2835_mmc_timeout_timer (h : TimerHost) : TimerOut :=
  if h.mrqActive then
    match h.data with
    | some d =>
      let fd := bcm2835_mmc_finish_data { d with error := -errTimedOut } h.sbcPresent
      { host := { h with data := none }, finishedData := some fd.1, events := fd.2 }
    | none =>
      match h.cmd with
      | some c =>
        { host := { h with cmd := some { c with error := -errTimedOut } },
          finishedData := none, events := [WEvent.scheduleTasklet] }
      | none =>
        { host := { h with mrqCmd := { h.mrqCmd with error := -errTimedOut } },
          finishedData := none, events := [WEvent.scheduleTasklet] }
  else { host := h, finishedData := none, events := [] }

/-!
Interrupt dispatch, from bcm2835_mmc_irq: one status read up front
with an immediate no-work exit on all-zero or all-one values, then an
acknowledge-and-handle loop bounded by 16 iterations, re-reading the
status at the bottom and continuing while it is nonzero and budget
remains.
-/

inductive IrqResult where
  | noWork
  | handled
  | wakeThread
deriving DecidableEq, Repr

/-- One-per-iteration state of the interrupt loop, recursing on the
remaining max_loops budget exactly as the do-while decrements it:
status idx is the re-read at the bottom of iteration number iters+1.
Returns the final result value, the number of body executions and the
accumulated unexpected-bit mask. -/
def bcm2835_mmc_irq_loop (status : Nat → Nat) :
    Nat → Nat → Nat → IrqResult → Nat → Nat → IrqResult × Nat × Nat
  | 0, _, _, result, iters, unexpected => (result, iters, unexpected)
  | m + 1, intmask, idx, result, iters, unexpected =>
    let result1 := if intmask &&& SDHCI_INT_CARD_INT ≠ 0 then IrqResult.wakeThread else result
    let leftover := intmask &&&
      (0xffffffff ^^^ (SDHCI_INT_CARD_INSERT ||| SDHCI_INT_CARD_REMOVE |||
        SDHCI_INT_CMD_MASK ||| SDHCI_INT_DATA_MASK ||| SDHCI_INT_ERROR |||
        SDHCI_INT_BUS_POWER ||| SDHCI_INT_CARD_INT))
    let unexpected1 := unexpected ||| leftover
    let result2 := if result1 = IrqResult.noWork then IrqResult.handled else result1
    let next := status idx
    if next ≠ 0 ∧ m ≠ 0 then
      bcm2835_mmc_irq_loop status m next (idx + 1) result2 (iters + 1) unexpected1
    else (result2, iters + 1, unexpected1)

/-- Embedding of bcm2835_mmc_irq over the stream of interrupt-status
reads: status 0 is the initial read, status (i+1) the re-read at the
bottom of iteration i+1. Returns the interrupt result, the number of
loop-body executions and the accumulated unexpected bits. -/
def bcm2835_mmc_irq (status : Nat → Nat) : IrqResult × Nat × Nat :=
  let intmask := status 0
  if intmask = 0 ∨ intmask = 0xffffffff then (IrqResult.noWork, 0, 0)
  else bcm2835_mmc_irq_loop status 16 intmask 1 IrqResult.noWork 0 0

/-!
Concrete scenarios used by witnesses and counterexamples.
-/

/-- A present-state read stream whose inhibit bits never clear. -/
def c2Present : Nat → Nat := fun _ => 3

/-- Host state for the stuck-inhibit scenario. -/
def c2Host : SHost :=
  { ier := 0, haveDma := true, flagAutoCmd12 := false, flagAutoCmd23 := true,
    flagReqUseDma := false, sbcPresent := false, sbcArg := 0, mrqHasData := false,
    cmdIsDataStop := false, useDma := false, blocks := 0, transferModeReg := 0 }

/-- A single-block read command for the stuck-inhibit scenario. -/
def c2Cmd : SCmd :=
  { opcode := 17, arg := 0, hasData := true, dataBlksz := 512, dataBlocks := 1,
    dataIsRead := true, rspPresent := true, rsp136 := false, rspBusy := false,
    rspCrc := true, rspOpcode := true, busyTimeout := 0, error := 0 }

/-- Register file with all hardware words zero, used to show that the
unflushed shadow round-trip does not return the written value. -/
def c10RegFileZero : RegFile := { regs := fun _ => 0, shadow := 0 }

/-- Register file with a distinctive long response, used as witness
input for the 136-bit reconstruction theorem. -/
def c6WitnessRegFile : RegFile :=
  { regs := fun a => if a = 16 then 0x11223344 else if a = 20 then 0x55667788
            else if a = 24 then 0x99AABBCC else if a = 28 then 0xDDEEFF00
            else if a = 12 then 0xAB000000 else 0,
    shadow := 0 }

/-!
General helper lemmas on fixed-width bit extraction.
-/

/-- Masking with 0xFF is reduction modulo 2 to the 8. -/
theorem land_ff_eq_mod (x : Nat) : x &&& 0xFF = x % 2 ^ 8 := by
  have h := Nat.and_pow_two_sub_one_eq_mod x 8
  norm_num at h ⊢
  exact h

/-- Masking with 0xffff is reduction modulo 2 to the 16. -/
theorem land_ffff_eq_mod (x : Nat) : x &&& 0xffff = x % 2 ^ 16 := by
  have h := Nat.and_pow_two_sub_one_eq_mod x 16
  norm_num at h ⊢
  exact h

/-- Truncation to 32 bits does not change the low 16 bits. -/
theorem mod32_land_ffff (x : Nat) : (x % 2 ^ 32) &&& 0xffff = x &&& 0xffff := by
  rw [land_ffff_eq_mod, land_ffff_eq_mod,
    Nat.mod_mod_of_dvd _ (by norm_num : (2 : Nat) ^ 16 ∣ 2 ^ 32)]

/-- C3: for every prepared data transfer, the DMA backend is selected
(use_dma = true) if and only if the host has functioning DMA channels
and the block count exceeds the PIO/DMA threshold; with the default
threshold 0 any nonzero block count uses DMA when DMA is available,
and otherwise the PIO backend is selected. -/
theorem C3_prepare_data_backend_selection (h : SHost) (cmd : SCmd)
    (hd : cmd.hasData = true) :
    ((bcm2835_mmc_prepare_data h cmd).1.useDma = true ↔
      (h.haveDma = true ∧ PIO_DMA_BARRIER < cmd.dataBlocks)) ∧
    (PIO_DMA_BARRIER = 0) ∧
    (h.haveDma = true → 0 < cmd.dataBlocks →
      (bcm2835_mmc_prepare_data h cmd).1.useDma = true) ∧
    ((bcm2835_mmc_prepare_data h cmd).1.useDma = false ↔
      ¬(h.haveDma = true ∧ PIO_DMA_BARRIER < cmd.dataBlocks)) := by
  refine ⟨?_, rfl, ?_, ?_⟩ <;>
    simp [bcm2835_mmc_prepare_data, hd, PIO_DMA_BARRIER] <;>
    tauto

/-- Closed witness for C3 at a concrete host and command: one block
with DMA available selects the DMA backend. -/
theorem C3_prepare_data_backend_selection_witness :
    c2Cmd.hasData = true ∧
    ((bcm2835_mmc_prepare_data c2Host c2Cmd).1.useDma = true ↔
      (c2Host.haveDma = true ∧ PIO_DMA_BARRIER < c2Cmd.dataBlocks)) := by
  refine ⟨by decide, (C3_prepare_data_backend_selection c2Host c2Cmd (by decide)).1⟩

/-- C4: the transfer-mode word of a data command has the auto-CMD12
bit only when the transfer is multi-block, no set-block-count
sub-command exists and the capability is present; the auto-CMD23 bit
only when a sub-command exists and that capability is present; and
never both bits at once. -/
theorem C4_transfer_mode_auto_cmd_bits (h : SHost) (cmd : SCmd) :
    (bcm2835_mmc_transfer_mode h cmd &&& SDHCI_TRNS_AUTO_CMD12 ≠ 0 →
      (mmc_op_multi cmd.opcode || decide (cmd.dataBlocks > 1)) = true ∧
      h.sbcPresent = false ∧ h.flagAutoCmd12 = true) ∧
    (bcm2835_mmc_transfer_mode h cmd &&& SDHCI_TRNS_AUTO_CMD23 ≠ 0 →
      h.sbcPresent = true ∧ h.flagAutoCmd23 = true) ∧
    ¬(bcm2835_mmc_transfer_mode h cmd &&& SDHCI_TRNS_AUTO_CMD12 ≠ 0 ∧
      bcm2835_mmc_transfer_mode h cmd &&& SDHCI_TRNS_AUTO_CMD23 ≠ 0) := by
  cases hmulti : (mmc_op_multi cmd.opcode || decide (cmd.dataBlocks > 1)) <;>
  cases hsbc : h.sbcPresent <;>
  cases h12 : h.flagAutoCmd12 <;>
  cases h23 : h.flagAutoCmd23 <;>
  cases hrd : cmd.dataIsRead <;>
  cases hdma : h.flagReqUseDma <;>
    simp only [bcm2835_mmc_transfer_mode, hmulti, hsbc, h12, h23, hrd, hdma,
      SDHCI_TRNS_BLK_CNT_EN, SDHCI_TRNS_MULTI, SDHCI_TRNS_AUTO_CMD12,
      SDHCI_TRNS_AUTO_CMD23, SDHCI_TRNS_READ, SDHCI_TRNS_DMA, Bool.and_self,
      Bool.and_true, Bool.and_false, Bool.true_and, Bool.false_and, Bool.not_true,
      Bool.not_false, if_true, if_false, ite_true, ite_false] <;>
    decide

/-- Closed witness for C4 at a concrete host and command: a
multi-block command with a sub-command and auto-CMD23 capability. -/
theorem C4_transfer_mode_auto_cmd_bits_witness :
    bcm2835_mmc_transfer_mode
        { c2Host with sbcPresent := true }
        { c2Cmd with dataBlocks := 8 } &&& SDHCI_TRNS_AUTO_CMD23 ≠ 0 ∧
    { c2Host with sbcPresent := true : SHost }.sbcPresent = true ∧
    { c2Host with sbcPresent := true : SHost }.flagAutoCmd23 = true := by
  have hb : bcm2835_mmc_transfer_mode { c2Host with sbcPresent := true }
      { c2Cmd with dataBlocks := 8 } &&& SDHCI_TRNS_AUTO_CMD23 ≠ 0 := by decide
  exact ⟨hb, (C4_transfer_mode_auto_cmd_bits { c2Host with sbcPresent := true }
    { c2Cmd with dataBlocks := 8 }).2.1 hb⟩

/-- C7: a data completion that carries an error and has a stop
command attached issues a command-state-machine reset and a
data-state-machine reset, in that order, strictly before dispatching
the stop command, and never a global reset. -/
theorem C7_finish_data_reset_before_stop (d : DataDesc) (sbc : Bool)
    (he : d.error ≠ 0) (hs : d.hasStop = true) :
    (bcm2835_mmc_finish_data d sbc).2 =
      [WEvent.reset SDHCI_RESET_CMD, WEvent.reset SDHCI_RESET_DATA, WEvent.dispatchStop] ∧
    WEvent.reset SDHCI_RESET_ALL ∉ (bcm2835_mmc_finish_data d sbc).2 ∧
    (bcm2835_mmc_finish_data d sbc).1.bytesXfered = 0 := by
  simp [bcm2835_mmc_finish_data, hs, he, SDHCI_RESET_CMD, SDHCI_RESET_DATA, SDHCI_RESET_ALL]

/-- Closed witness for C7: a concrete errored data descriptor with a
stop command. -/
theorem C7_finish_data_reset_before_stop_witness :
    (bcm2835_mmc_finish_data
        { blksz := 512, blocks := 2, hasStop := true, error := -errTimedOut, bytesXfered := 7 }
        false).2 =
      [WEvent.reset SDHCI_RESET_CMD, WEvent.reset SDHCI_RESET_DATA, WEvent.dispatchStop] :=
  (C7_finish_data_reset_before_stop
    { blksz := 512, blocks := 2, hasStop := true, error := -errTimedOut, bytesXfered := 7 }
    false (by decide) (by decide)).1

/-- C9: on watchdog expiry with an active request, in-flight data
gets a timeout error and data completion runs; with no data the
active command (or, failing that, the main request command) gets a
timeout error and completion is scheduled; with no active request
nothing changes. -/
theorem C9_timeout_timer_routes (h : TimerHost) :
    (h.mrqActive = false →
      bcm2835_mmc_timeout_timer h = { host := h, finishedData := none, events := [] }) ∧
    (h.mrqActive = true → ∀ d, h.data = some d →
      (bcm2835_mmc_timeout_timer h).finishedData =
        some (bcm2835_mmc_finish_data { d with error := -errTimedOut } h.sbcPresent).1 ∧
      (∀ d2, (bcm2835_mmc_timeout_timer h).finishedData = some d2 →
        d2.error = -errTimedOut ∧ d2.bytesXfered = 0) ∧
      (bcm2835_mmc_timeout_timer h).events =
        (bcm2835_mmc_finish_data { d with error := -errTimedOut } h.sbcPresent).2) ∧
    (h.mrqActive = true → h.data = none → ∀ c, h.cmd = some c →
      (bcm2835_mmc_timeout_timer h).host.cmd = some { c with error := -errTimedOut } ∧
      (bcm2835_mmc_timeout_timer h).events = [WEvent.scheduleTasklet]) ∧
    (h.mrqActive = true → h.data = none → h.cmd = none →
      (bcm2835_mmc_timeout_timer h).host.mrqCmd.error = -errTimedOut ∧
      (bcm2835_mmc_timeout_timer h).events = [WEvent.scheduleTasklet]) := by
  refine ⟨?_, ?_, ?_, ?_⟩
  · intro hm
    simp [bcm2835_mmc_timeout_timer, hm]
  · intro hm d hd
    have herr : (bcm2835_mmc_finish_data { d with error := -errTimedOut } h.sbcPresent).1.error =
        -errTimedOut := by
      simp only [bcm2835_mmc_finish_data]
      split <;> simp
    have hbx : (bcm2835_mmc_finish_data { d with error := -errTimedOut } h.sbcPresent).1.bytesXfered =
        0 := by
      simp only [bcm2835_mmc_finish_data]
      split <;> simp [errTimedOut]
    refine ⟨?_, ?_, ?_⟩ <;>
      simp_all [bcm2835_mmc_timeout_timer, hm, hd]
  · intro hm hd c hc
    simp [bcm2835_mmc_timeout_timer, hm, hd, hc]
  · intro hm hd hc
    simp [bcm2835_mmc_timeout_timer, hm, hd, hc]

/-- Closed witness for C9: expiry with data in flight on a concrete
host. -/
theorem C9_timeout_timer_routes_witness :
    (bcm2835_mmc_timeout_timer
        { mrqActive := true,
          data := some { blksz := 512, blocks := 1, hasStop := false, error := 0, bytesXfered := 0 },
          cmd := none, mrqCmd := { error := 0 }, sbcPresent := false }).finishedData =
      some (bcm2835_mmc_finish_data
        { blksz := 512, blocks := 1, hasStop := false, error := -errTimedOut, bytesXfered := 0 }
        false).1 :=
  ((C9_timeout_timer_routes
      { mrqActive := true,
        data := some { blksz := 512, blocks := 1, hasStop := false, error := 0, bytesXfered := 0 },
        cmd := none, mrqCmd := { error := 0 }, sbcPresent := false }).2.1
    rfl _ rfl).1

/-- Extracting a byte by shift and mask is division and remainder. -/
theorem extract_byte (w k : Nat) : (w >>> k) &&& 0xFF = w / 2 ^ k % 2 ^ 8 := by
  rw [Nat.shiftRight_eq_div_pow, land_ff_eq_mod]

/-- OR-ing a shifted value onto a small accumulator is addition. -/
theorem or_shift_eq_add (a b k : Nat) (ha : a < 2 ^ k) : a ||| (b <<< k) = a + 2 ^ k * b := by
  rw [Nat.shiftLeft_eq, Nat.mul_comm b (2 ^ k), Nat.or_comm, ← Nat.mul_add_lt_is_or ha b]
  omega

/-- The scratch word after packing two bytes. -/
theorem pio_word2 (b0 b1 : Nat) (h0 : b0 < 256) : b0 ||| (b1 <<< 8) = b0 + 256 * b1 := by
  rw [or_shift_eq_add b0 b1 8 (lt_of_lt_of_eq h0 (by norm_num : (256 : Nat) = 2 ^ 8))]
  norm_num

/-- The scratch word after packing three bytes. -/
theorem pio_word3 (b0 b1 b2 : Nat) (h0 : b0 < 256) (h1 : b1 < 256) :
    b0 ||| (b1 <<< 8) ||| (b2 <<< 16) = b0 + 256 * b1 + 65536 * b2 := by
  rw [pio_word2 b0 b1 h0,
    or_shift_eq_add (b0 + 256 * b1) b2 16
      (lt_of_lt_of_eq (by omega) (by norm_num : (65536 : Nat) = 2 ^ 16))]
  norm_num

/-- The scratch word after packing four bytes. -/
theorem pio_word4 (b0 b1 b2 b3 : Nat) (h0 : b0 < 256) (h1 : b1 < 256) (h2 : b2 < 256) :
    b0 ||| (b1 <<< 8) ||| (b2 <<< 16) ||| (b3 <<< 24) =
      b0 + 256 * b1 + 65536 * b2 + 16777216 * b3 := by
  rw [pio_word3 b0 b1 b2 h0 h1,
    or_shift_eq_add (b0 + 256 * b1 + 65536 * b2) b3 24
      (lt_of_lt_of_eq (by omega) (by norm_num : (16777216 : Nat) = 2 ^ 24))]
  norm_num

/-- The PIO write path packing followed by the PIO read path unpacking
restores any byte sequence. -/
theorem pio_roundtrip_aux (bs : List Nat) (h : ∀ b ∈ bs, b < 256) :
    bcm2835_pio_unpack (bcm2835_pio_pack bs) bs.length = bs := by
  induction bs using bcm2835_pio_pack.induct with
  | case1 => rfl
  | case2 b0 =>
    have h0 : b0 < 256 := h b0 (by simp)
    simp [bcm2835_pio_pack, bcm2835_pio_unpack, land_ff_eq_mod]
    omega
  | case3 b0 b1 =>
    have h0 : b0 < 256 := h b0 (by simp)
    have h1 : b1 < 256 := h b1 (by simp)
    simp only [bcm2835_pio_pack, bcm2835_pio_unpack, List.length_cons, List.length_nil]
    rw [pio_word2 b0 b1 h0, land_ff_eq_mod, extract_byte]
    simp only [List.cons.injEq, and_true]
    norm_num
    omega
  | case4 b0 b1 b2 =>
    have h0 : b0 < 256 := h b0 (by simp)
    have h1 : b1 < 256 := h b1 (by simp)
    have h2 : b2 < 256 := h b2 (by simp)
    simp only [bcm2835_pio_pack, bcm2835_pio_unpack, List.length_cons, List.length_nil]
    rw [pio_word3 b0 b1 b2 h0 h1, land_ff_eq_mod, extract_byte, extract_byte]
    simp only [List.cons.injEq, and_true]
    norm_num
    omega
  | case5 b0 b1 b2 b3 rest ih =>
    have h0 : b0 < 256 := h b0 (by simp)
    have h1 : b1 < 256 := h b1 (by simp)
    have h2 : b2 < 256 := h b2 (by simp)
    have h3 : b3 < 256 := h b3 (by simp)
    have hrest : ∀ b ∈ rest, b < 256 := fun b hb => h b (by simp [hb])
    simp only [bcm2835_pio_pack, bcm2835_pio_unpack, List.length_cons]
    rw [pio_word4 b0 b1 b2 b3 h0 h1 h2, land_ff_eq_mod, extract_byte, extract_byte,
      extract_byte, ih hrest]
    simp only [List.cons.injEq, and_true]
    norm_num
    omega

/-- C5: packing a byte sequence of block size 1..512 with the PIO
write path (least-significant byte first, one buffer-register write
per 4 bytes, partial trailing word flushed at block end) and then
unpacking with the PIO read path yields the original byte sequence. -/
theorem C5_pio_pack_unpack_roundtrip (bs : List Nat) (h : ∀ b ∈ bs, b < 256)
    (hlen1 : 1 ≤ bs.length) (hlen2 : bs.length ≤ 512) :
    bcm2835_pio_unpack (bcm2835_pio_pack bs) bs.length = bs :=
  pio_roundtrip_aux bs h

/-- Closed witness for C5: a 5-byte block (not a multiple of 4)
round-trips. -/
theorem C5_pio_pack_unpack_roundtrip_witness :
    (∀ b ∈ ([17, 254, 3, 128, 99] : List Nat), b < 256) ∧
    1 ≤ ([17, 254, 3, 128, 99] : List Nat).length ∧
    ([17, 254, 3, 128, 99] : List Nat).length ≤ 512 ∧
    bcm2835_pio_unpack (bcm2835_pio_pack [17, 254, 3, 128, 99]) 5 = [17, 254, 3, 128, 99] :=
  ⟨by decide, by decide, by decide,
    C5_pio_pack_unpack_roundtrip [17, 254, 3, 128, 99] (by decide) (by decide) (by decide)⟩
/-- Invariant of the even-divisor upward search: starting at an even
divisor d with exactly enough fuel to reach 2046, the result is an
even divisor between d and 2046; it satisfies the frequency bound
whenever the maximum divisor does, and every smaller even candidate
from d upward fails the bound. -/
theorem clock_div_search_spec (max_clk clock : Nat) :
    ∀ fuel d, 2 ≤ d → d % 2 = 0 → d + 2 * fuel = 2046 →
      d ≤ bcm2835_mmc_clock_div_search max_clk clock d fuel ∧
      bcm2835_mmc_clock_div_search max_clk clock d fuel ≤ 2046 ∧
      bcm2835_mmc_clock_div_search max_clk clock d fuel % 2 = 0 ∧
      (max_clk / 2046 ≤ clock →
        max_clk / bcm2835_mmc_clock_div_search max_clk clock d fuel ≤ clock) ∧
      ∀ e, d ≤ e → e < bcm2835_mmc_clock_div_search max_clk clock d fuel → e % 2 = 0 →
        clock < max_clk / e := by
  intro fuel
  induction fuel with
  | zero =>
    intro d h2 he hs
    have hd : d = 2046 := by omega
    subst hd
    rw [show bcm2835_mmc_clock_div_search max_clk clock 2046 0 = 2046 from rfl]
    exact ⟨le_refl _, le_refl _, by decide, fun hb => hb, fun e h1 h2' _ => by omega⟩
  | succ f ih =>
    intro d h2 he hs
    have hd : d < SDHCI_MAX_DIV_SPEC_300 := by
      simp only [SDHCI_MAX_DIV_SPEC_300]
      omega
    have hunf : bcm2835_mmc_clock_div_search max_clk clock d (f + 1) =
        if max_clk / d ≤ clock then d
        else bcm2835_mmc_clock_div_search max_clk clock (d + 2) f := by
      rw [bcm2835_mmc_clock_div_search, if_pos hd]
    rw [hunf]
    by_cases hq : max_clk / d ≤ clock
    · rw [if_pos hq]
      exact ⟨le_refl _, by omega, he, fun _ => hq, fun e h1 h2' _ => by omega⟩
    · rw [if_neg hq]
      obtain ⟨ih1, ih2, ih3, ih4, ih5⟩ := ih (d + 2) (by omega) (by omega) (by omega)
      refine ⟨by omega, ih2, ih3, ih4, ?_⟩
      intro e he1 he2 he3
      by_cases hed : e = d
      · subst hed
        omega
      · exact ih5 e (by omega) he2 he3

/-- C1 (amended): for a nonzero target clock no larger than hardware
can reach with its maximum divisor, bcm2835_mmc_set_clock selects
divisor 1 when max_clk does not exceed the target and otherwise the
smallest even divisor whose quotient meets the target; the actual
clock max_clk / d never exceeds the target and is maximal among the
divisors the hardware can program. -/
theorem C1_set_clock_divisor (max_clk clock : Nat) (hpos : 0 < clock)
    (hbound : max_clk / SDHCI_MAX_DIV_SPEC_300 ≤ clock) :
    (bcm2835_mmc_set_clock max_clk clock).realDiv = bcm2835_mmc_select_div max_clk clock ∧
    (bcm2835_mmc_set_clock max_clk clock).actualClock =
      max_clk / bcm2835_mmc_select_div max_clk clock ∧
    (max_clk ≤ clock → bcm2835_mmc_select_div max_clk clock = 1) ∧
    (clock < max_clk → bcm2835_mmc_select_div max_clk clock % 2 = 0) ∧
    1 ≤ bcm2835_mmc_select_div max_clk clock ∧
    bcm2835_mmc_select_div max_clk clock ≤ SDHCI_MAX_DIV_SPEC_300 ∧
    max_clk / bcm2835_mmc_select_div max_clk clock ≤ clock ∧
    (∀ e, 2 ≤ e → e % 2 = 0 → e < bcm2835_mmc_select_div max_clk clock →
      clock < max_clk / e) ∧
    (∀ e, 1 ≤ e → (e = 1 ∨ e % 2 = 0) → max_clk / e ≤ clock →
      max_clk / e ≤ max_clk / bcm2835_mmc_select_div max_clk clock) := by
  have hb2046 : max_clk / 2046 ≤ clock := by
    simpa [SDHCI_MAX_DIV_SPEC_300] using hbound
  by_cases hm : max_clk ≤ clock
  · have hdiv : bcm2835_mmc_select_div max_clk clock = 1 := by
      simp [bcm2835_mmc_select_div, hm]
    have hsc : (bcm2835_mmc_set_clock max_clk clock).realDiv = 1 ∧
        (bcm2835_mmc_set_clock max_clk clock).actualClock = max_clk := by
      simp [bcm2835_mmc_set_clock, Nat.pos_iff_ne_zero.mp hpos, hdiv]
    refine ⟨by simp [hsc.1, hdiv], by simp [hsc.2, hdiv], fun _ => hdiv,
      fun hlt => absurd hm (by omega), by omega, by simp [hdiv, SDHCI_MAX_DIV_SPEC_300],
      by simpa [hdiv] using hm, fun e he1 _ he3 => by omega, ?_⟩
    intro e he1 _ _
    simp only [hdiv, Nat.div_one]
    exact Nat.div_le_self max_clk e
  · have hm' : clock < max_clk := by omega
    have hdiv : bcm2835_mmc_select_div max_clk clock =
        bcm2835_mmc_clock_div_search max_clk clock 2 1022 := by
      simp [bcm2835_mmc_select_div, hm]
    obtain ⟨hle, hub, heven, hbnd, hmin⟩ :=
      clock_div_search_spec max_clk clock 1022 2 (by omega) (by omega) (by omega)
    have hq : max_clk / bcm2835_mmc_select_div max_clk clock ≤ clock := by
      rw [hdiv]
      exact hbnd hb2046
    have hpos' : 1 ≤ bcm2835_mmc_select_div max_clk clock := by omega
    have hne : bcm2835_mmc_select_div max_clk clock ≠ 0 := by omega
    have hsc : (bcm2835_mmc_set_clock max_clk clock).realDiv =
          bcm2835_mmc_select_div max_clk clock ∧
        (bcm2835_mmc_set_clock max_clk clock).actualClock =
          max_clk / bcm2835_mmc_select_div max_clk clock := by
      simp [bcm2835_mmc_set_clock, Nat.pos_iff_ne_zero.mp hpos, hne]
    refine ⟨hsc.1, hsc.2, fun hc => absurd hc hm, fun _ => by rw [hdiv]; exact heven,
      hpos', by rw [hdiv]; simpa [SDHCI_MAX_DIV_SPEC_300] using hub, hq, ?_, ?_⟩
    · intro e he1 he2 he3
      rw [hdiv] at he3
      exact hmin e he1 he3 he2
    · intro e he1 heo hbe
      rcases heo with h1 | h2
      · subst h1
        simp only [Nat.div_one] at hbe
        omega
      · by_cases hlt : e < bcm2835_mmc_select_div max_clk clock
        · have h2e : 2 ≤ e := by omega
          have := hmin e h2e (by rwa [hdiv] at hlt) h2
          omega
        · exact Nat.div_le_div_left (by omega) (by omega)

/-- Counterexample to C1 as stated: at max_clk = 1000000000 and
target 1, no even divisor up to the hardware maximum satisfies the
bound, the loop falls through to divisor 2046, and the resulting
actual clock 488758 exceeds the requested clock. -/
theorem C1_set_clock_counterexample :
    bcm2835_mmc_select_div 1000000000 1 = 2046 ∧
    (bcm2835_mmc_set_clock 1000000000 1).actualClock = 488758 ∧
    1 < (bcm2835_mmc_set_clock 1000000000 1).actualClock := by
  refine ⟨by decide, by decide, by decide⟩

/-- Closed witness for C1 at the worked example of the spec:
max_clk = 50000000 and target 25000000 give divisor 2 and a maximal
actual clock of exactly 25000000. -/
theorem C1_set_clock_witness :
    (0 < 25000000 ∧ 50000000 / SDHCI_MAX_DIV_SPEC_300 ≤ 25000000) ∧
    bcm2835_mmc_select_div 50000000 25000000 = 2 ∧
    (bcm2835_mmc_set_clock 50000000 25000000).actualClock =
      50000000 / bcm2835_mmc_select_div 50000000 25000000 ∧
    50000000 / bcm2835_mmc_select_div 50000000 25000000 ≤ 25000000 := by
  have h := C1_set_clock_divisor 50000000 25000000 (by decide) (by decide)
  exact ⟨⟨by decide, by decide⟩, by decide, h.2.1, h.2.2.2.2.2.2.1⟩
/-- When the masked present-state bits never clear, the busy-poll
always exhausts its fuel. -/
theorem poll_present_stuck (present : Nat → Nat) (mask : Nat)
    (h : ∀ i, present i &&& mask ≠ 0) :
    ∀ fuel start, bcm2835_mmc_poll_present present mask fuel start = none := by
  intro fuel
  induction fuel with
  | zero =>
    intro s
    rw [bcm2835_mmc_poll_present, if_neg (h s)]
  | succ f ih =>
    intro s
    rw [bcm2835_mmc_poll_present, if_neg (h s)]
    exact ih (s + 1)

/-- C2 (amended): when the inhibit bits never clear,
bcm2835_mmc_send_command exhausts its bounded busy-poll of
1000 ten-microsecond steps (10ms), sets the command error to the
negative of errIo (a generic input/output error, not a timeout
error), schedules completion directly, and performs no register
programming at all; in particular neither the argument nor the
command register is written. -/
theorem C2_send_command_inhibit_exhaustion (present : Nat → Nat) (h : SHost) (cmd : SCmd)
    (hstuck : ∀ i, present i &&& bcm2835_mmc_inhibit_mask h cmd ≠ 0) :
    (bcm2835_mmc_send_command present h cmd).cmd.error = -errIo ∧
    (bcm2835_mmc_send_command present h cmd).events = [WEvent.scheduleTasklet] ∧
    (bcm2835_mmc_send_command present h cmd).delayedUs = 10 * 1000 ∧
    (∀ v, WEvent.argument v ∉ (bcm2835_mmc_send_command present h cmd).events) ∧
    (∀ v, WEvent.command v ∉ (bcm2835_mmc_send_command present h cmd).events) ∧
    (bcm2835_mmc_send_command present h cmd).host = h := by
  have hpoll := poll_present_stuck present (bcm2835_mmc_inhibit_mask h cmd) hstuck 1000 0
  simp [bcm2835_mmc_send_command, hpoll]

/-- Counterexample to C2 as stated: the error the driver records on
poll exhaustion is the negative of errIo, not the timeout error. -/
theorem C2_send_command_counterexample :
    (bcm2835_mmc_send_command c2Present c2Host c2Cmd).cmd.error = -errIo ∧
    (bcm2835_mmc_send_command c2Present c2Host c2Cmd).cmd.error ≠ -errTimedOut := by
  refine ⟨by decide, by decide⟩

/-- Closed witness for C2 at the concrete stuck scenario. -/
theorem C2_send_command_inhibit_exhaustion_witness :
    (bcm2835_mmc_send_command c2Present c2Host c2Cmd).cmd.error = -errIo ∧
    (bcm2835_mmc_send_command c2Present c2Host c2Cmd).events = [WEvent.scheduleTasklet] ∧
    (bcm2835_mmc_send_command c2Present c2Host c2Cmd).delayedUs = 10 * 1000 :=
  (fun hh => ⟨hh.1, hh.2.1, hh.2.2.1⟩)
    (C2_send_command_inhibit_exhaustion c2Present c2Host c2Cmd
      (by intro i; show (3 : Nat) &&& bcm2835_mmc_inhibit_mask c2Host c2Cmd ≠ 0; decide))
/-- The interrupt loop executes its body at most as many more times
as its remaining max_loops budget. -/
theorem irq_loop_iters_le (status : Nat → Nat) :
    ∀ m intmask idx result iters unexpected,
      (bcm2835_mmc_irq_loop status m intmask idx result iters unexpected).2.1 ≤ iters + m := by
  intro m
  induction m with
  | zero =>
    intro intmask idx result iters unexpected
    simp [bcm2835_mmc_irq_loop]
  | succ m ih =>
    intro intmask idx result iters unexpected
    rw [bcm2835_mmc_irq_loop]
    by_cases hc : status idx ≠ 0 ∧ m ≠ 0
    · rw [if_pos hc]
      exact le_trans (ih _ _ _ _ _) (by omega)
    · rw [if_neg hc]
      simp

/-- C8: a single invocation of the interrupt dispatcher executes its
acknowledge-and-handle loop at most 16 times for every status-read
stream, and exits immediately reporting no work when the first read
is all-zero or all-ones. -/
theorem C8_irq_loop_bounded (status : Nat → Nat) :
    (bcm2835_mmc_irq status).2.1 ≤ 16 ∧
    ((status 0 = 0 ∨ status 0 = 0xffffffff) →
      bcm2835_mmc_irq status = (IrqResult.noWork, 0, 0)) := by
  by_cases h0 : status 0 = 0 ∨ status 0 = 0xffffffff
  · constructor
    · simp [bcm2835_mmc_irq, h0]
    · intro _
      simp [bcm2835_mmc_irq, h0]
  · constructor
    · have hb := irq_loop_iters_le status 16 (status 0) 1 IrqResult.noWork 0 0
      simp only [bcm2835_mmc_irq, h0, if_false]
      simpa using hb
    · intro hh
      exact absurd hh h0

/-- Closed witness for C8: a stream that stays at zero takes the
immediate no-work exit, and a stream that never clears (and a storm
of response bits) still executes at most 16 iterations. -/
theorem C8_irq_loop_bounded_witness :
    bcm2835_mmc_irq (fun _ => 0) = (IrqResult.noWork, 0, 0) ∧
    (bcm2835_mmc_irq (fun _ => 2)).2.1 ≤ 16 ∧
    (bcm2835_mmc_irq (fun _ => 2)).2.1 = 16 :=
  ⟨(C8_irq_loop_bounded (fun _ => 0)).2 (Or.inl rfl),
   (C8_irq_loop_bounded (fun _ => 2)).1, by decide⟩
/-- C6 (amended): for the three most-significant words of a long
response the driver stores the 4-byte-aligned chunk shifted left 8
bits OR-ed with the separately-read top byte of the
next-less-significant chunk; the least-significant word (index 3) is
only its chunk shifted left 8 bits, with no preceding byte OR-ed in,
so its low byte is zero. -/
theorem C6_resp136_reconstruction (rf : RegFile) :
    (∀ i : Fin 4, i.val < 3 →
      bcm2835_mmc_finish_command_resp136 rf i =
        ((bcm2835_mmc_readl rf (SDHCI_RESPONSE + (3 - i.val) * 4) * 2 ^ 8) % 2 ^ 32) |||
        (bcm2835_mmc_readl rf (SDHCI_RESPONSE + (2 - i.val) * 4) / 2 ^ 24 % 2 ^ 8)) ∧
    bcm2835_mmc_finish_command_resp136 rf 3 =
      (bcm2835_mmc_readl rf SDHCI_RESPONSE * 2 ^ 8) % 2 ^ 32 ∧
    bcm2835_mmc_finish_command_resp136 rf 3 % 2 ^ 8 = 0 := by
  have h3 : ((3 : Fin 4) : Nat) = 3 := rfl
  have hlast : bcm2835_mmc_finish_command_resp136 rf 3 =
      (bcm2835_mmc_readl rf SDHCI_RESPONSE * 2 ^ 8) % 2 ^ 32 := by
    simp [bcm2835_mmc_finish_command_resp136, h3, SDHCI_RESPONSE, Nat.shiftLeft_eq]
  refine ⟨?_, hlast, ?_⟩
  · intro i hi
    fin_cases i
    · simp [bcm2835_mmc_finish_command_resp136, bcm2835_mmc_readb,
        SDHCI_RESPONSE, Nat.shiftLeft_eq, extract_byte]
    · simp [bcm2835_mmc_finish_command_resp136, bcm2835_mmc_readb,
        SDHCI_RESPONSE, Nat.shiftLeft_eq, extract_byte]
    · simp [bcm2835_mmc_finish_command_resp136, bcm2835_mmc_readb,
        SDHCI_RESPONSE, Nat.shiftLeft_eq, extract_byte]
    · simp at hi
  · rw [hlast, Nat.mod_mod_of_dvd _ (by norm_num : (2 : Nat) ^ 8 ∣ 2 ^ 32)]
    norm_num

/-- Counterexample to C6 as stated: with a nonzero top byte in the
word just below the response area, OR-ing a separately-read preceding
byte into all four chunks disagrees with what the driver computes for
the least-significant word. -/
theorem C6_resp136_counterexample :
    bcm2835_mmc_finish_command_resp136 resp136CexRegFile 3 ≠
      resp136ClaimAllChunks resp136CexRegFile 3 ∧
    bcm2835_mmc_finish_command_resp136 resp136CexRegFile 3 = 0 ∧
    resp136ClaimAllChunks resp136CexRegFile 3 = 0xFF := by
  refine ⟨by decide, by decide, by decide⟩

/-- Closed witness for C6 on a concrete register file: the most
significant response word combines its chunk with the top byte of the
next chunk. -/
theorem C6_resp136_reconstruction_witness :
    (0 : Fin 4).val < 3 ∧
    bcm2835_mmc_finish_command_resp136 c6WitnessRegFile 0 =
      ((bcm2835_mmc_readl c6WitnessRegFile (SDHCI_RESPONSE + (3 - (0 : Fin 4).val) * 4) * 2 ^ 8)
          % 2 ^ 32) |||
      (bcm2835_mmc_readl c6WitnessRegFile (SDHCI_RESPONSE + (2 - (0 : Fin 4).val) * 4)
          / 2 ^ 24 % 2 ^ 8) :=
  ⟨by decide, (C6_resp136_reconstruction c6WitnessRegFile).1 0 (by decide)⟩

/-- OR-ing a value shifted past bit 16 does not change the low
16 bits. -/
theorem or_shift16_land_ffff (s c : Nat) :
    ((s &&& 0xffff) ||| (c <<< 16)) &&& 0xffff = s &&& 0xffff := by
  apply Nat.eq_of_testBit_eq
  intro i
  have hb : Nat.testBit 65535 i = decide (i < 16) := by
    have h := Nat.testBit_two_pow_sub_one 16 i
    norm_num at h
    exact h
  simp only [Nat.testBit_and, Nat.testBit_or, Nat.testBit_shiftLeft, hb]
  rcases Nat.lt_or_ge i 16 with hi | hi
  · simp [hi, Nat.not_le.mpr hi]
  · simp [Nat.not_lt.mpr hi]

/-- Keeping only the high half of a word and OR-ing in a 16-bit value
leaves exactly that value in the low half. -/
theorem masked_or_low (a v : Nat) (hv : v < 65536) :
    ((a &&& 0xffff0000) ||| v) &&& 0xffff = v := by
  apply Nat.eq_of_testBit_eq
  intro i
  have hb : Nat.testBit 65535 i = decide (i < 16) := by
    have h := Nat.testBit_two_pow_sub_one 16 i
    norm_num at h
    exact h
  have hb2 : Nat.testBit 4294901760 i = (decide (16 ≤ i) && Nat.testBit 65535 (i - 16)) := by
    rw [show (4294901760 : Nat) = 65535 <<< 16 by norm_num [Nat.shiftLeft_eq],
      Nat.testBit_shiftLeft]
  simp only [Nat.testBit_and, Nat.testBit_or, hb, hb2]
  rcases Nat.lt_or_ge i 16 with hi | hi
  · simp [hi, Nat.not_le.mpr hi]
  · have h16 : (65536 : Nat) = 2 ^ 16 := by norm_num
    have hv2 : v < 2 ^ i :=
      lt_of_lt_of_le (h16 ▸ hv) (Nat.pow_le_pow_right (by norm_num) hi)
    have hv' : v.testBit i = false := Nat.testBit_lt_two_pow hv2
    simp [Nat.not_lt.mpr hi, hv']

/-- C10: a 16-bit write to the transfer-mode register performs no
MMIO write and leaves every hardware word unchanged, updating only
the in-memory shadow; a subsequent 16-bit read returns the current
hardware half-word, not the written value (shown not equal on a
concrete register file); and only after a command-register write
flushes the shadow to the shared hardware word does reading the
transfer-mode register return the written value. -/
theorem C10_transfer_mode_shadow_roundtrip (rf : RegFile) (v c : Nat) (hv : v < 65536) :
    (bcm2835_mmc_writew rf v SDHCI_TRANSFER_MODE).2 = [] ∧
    (bcm2835_mmc_writew rf v SDHCI_TRANSFER_MODE).1.regs = rf.regs ∧
    bcm2835_mmc_readw (bcm2835_mmc_writew rf v SDHCI_TRANSFER_MODE).1 SDHCI_TRANSFER_MODE =
      bcm2835_mmc_readw rf SDHCI_TRANSFER_MODE ∧
    bcm2835_mmc_readw
        (bcm2835_mmc_writew (bcm2835_mmc_writew rf v SDHCI_TRANSFER_MODE).1 c SDHCI_COMMAND).1
        SDHCI_TRANSFER_MODE = v ∧
    (bcm2835_mmc_writew (bcm2835_mmc_writew rf v SDHCI_TRANSFER_MODE).1 c SDHCI_COMMAND).2 ≠ [] ∧
    bcm2835_mmc_readw (bcm2835_mmc_writew c10RegFileZero 5 SDHCI_TRANSFER_MODE).1
      SDHCI_TRANSFER_MODE ≠ 5 := by
  have hflush : bcm2835_mmc_readw
      (bcm2835_mmc_writew (bcm2835_mmc_writew rf v SDHCI_TRANSFER_MODE).1 c SDHCI_COMMAND).1
      SDHCI_TRANSFER_MODE = v := by
    have hcanon : bcm2835_mmc_readw
        (bcm2835_mmc_writew (bcm2835_mmc_writew rf v SDHCI_TRANSFER_MODE).1 c SDHCI_COMMAND).1
        SDHCI_TRANSFER_MODE =
        ((((((rf.regs 12 % 2 ^ 32 &&& 4294901760) ||| v) &&& 65535) ||| (c <<< 16))
            % 2 ^ 32) % 2 ^ 32) &&& 65535 := rfl
    rw [hcanon, Nat.mod_mod_of_dvd _ (dvd_refl (2 ^ 32)), mod32_land_ffff,
      or_shift16_land_ffff, masked_or_low _ v hv]
  have hwrites : (bcm2835_mmc_writew (bcm2835_mmc_writew rf v SDHCI_TRANSFER_MODE).1
      c SDHCI_COMMAND).2 =
      [(12, (((((rf.regs 12 % 2 ^ 32 &&& 4294901760) ||| v) &&& 65535) ||| (c <<< 16))
        % 2 ^ 32))] := rfl
  refine ⟨rfl, rfl, rfl, hflush, ?_, by decide⟩
  rw [hwrites]
  simp

/-- Closed witness for C10: writing 0x1234 to the transfer-mode
register issues no MMIO write, and the value reads back only after a
command-register write flushes the shared word. -/
theorem C10_transfer_mode_shadow_roundtrip_witness :
    (bcm2835_mmc_writew c10RegFileZero 0x1234 SDHCI_TRANSFER_MODE).2 = [] ∧
    bcm2835_mmc_readw
        (bcm2835_mmc_writew (bcm2835_mmc_writew c10RegFileZero 0x1234 SDHCI_TRANSFER_MODE).1
          0x55 SDHCI_COMMAND).1 SDHCI_TRANSFER_MODE = 0x1234 :=
  ⟨(C10_transfer_mode_shadow_roundtrip c10RegFileZero 0x1234 0x55 (by decide)).1,
   (C10_transfer_mode_shadow_roundtrip c10RegFileZero 0x1234 0x55 (by decide)).2.2.2.1⟩
